import Mathlib

/-!
Verification of the Perplexica caption-search action and the OpenAI LLM
provider adapter.  The definitions below are a shallow embedding of the
TypeScript source files:

  - `src/unnamed/part_000` (the `caption_search` research action),
  - `src/src/lib/models/providers/openai/openaiLLM.ts` (the `OpenAILLM`
    provider adapter),
  - `src/src/lib/config/serverRegistry.ts` (configuration lookup).

JavaScript strings are modelled by Lean `String`, JSON values by the `Json`
inductive below (numbers are kept as source lexemes since the embedded code
never computes with them), thrown exceptions by `Option`/`Except`, and the
async generators by pure functions from the list of upstream chunks to the
list of yielded updates.
-/

set_option maxRecDepth 10000

namespace PerplexicaSpec

/-- JSON values as handled by the JavaScript `JSON.parse` / `partial-json`
parsers.  Object fields are kept in insertion order; numbers are kept as
their source lexeme (the embedded code only passes them through and never
computes with them). -/
inductive Json where
  | null : Json
  | bool (b : Bool) : Json
  | num (lexeme : String) : Json
  | str (s : String) : Json
  | arr (elems : List Json) : Json
  | obj (fields : List (String × Json)) : Json

/-- The `\x7b` character (left curly brace). -/
def lbraceC : Char := Char.ofNat 123

/-- The `\x7d` character (right curly brace). -/
def rbraceC : Char := Char.ofNat 125

/-- The backtick character. -/
def btickC : Char := Char.ofNat 96

/-- Whitespace characters recognised by the JavaScript regex class `\s` and
by `String.prototype.trim` (restricted to the ASCII range; the embedded
code never feeds Unicode whitespace to these primitives). -/
def wsChar (c : Char) : Bool :=
  c = ' ' || c = Char.ofNat 9 || c = Char.ofNat 10 ||
  c = Char.ofNat 13 || c = Char.ofNat 11 || c = Char.ofNat 12

/-- Drop leading JSON whitespace. -/
def skipWs (cs : List Char) : List Char := cs.dropWhile wsChar

/-- Value of a hexadecimal digit character, `none` for other characters. -/
def hexVal (c : Char) : Option Nat :=
  if c.isDigit then some (c.toNat - 48)
  else if 'a' ≤ c && c ≤ 'f' then some (c.toNat - 87)
  else if 'A' ≤ c && c ≤ 'F' then some (c.toNat - 55)
  else none

/-- Scan a JSON string body (the opening quote already consumed).
Returns the decoded characters and the unconsumed input.  An unterminated
string at end of input is tolerated (the `partial-json` package returns the
partial text); an invalid escape is malformed (`none`). -/
def scanStr : List Char → Option (List Char × List Char)
  | [] => some ([], [])
  | c :: r =>
    if c = '"' then some ([], r)
    else if c = '\\' then
      match r with
      | [] => some ([], [])
      | e :: r2 =>
        if e = 'u' then
          match r2 with
          | h1 :: h2 :: h3 :: h4 :: r3 =>
            (match hexVal h1, hexVal h2, hexVal h3, hexVal h4 with
             | some v1, some v2, some v3, some v4 =>
               match scanStr r3 with
               | some (s, rest) =>
                 some (Char.ofNat (4096 * v1 + 256 * v2 + 16 * v3 + v4) :: s, rest)
               | none => none
             | _, _, _, _ => none)
          | _ => some ([], [])
        else
          match (if e = '"' then some '"' else if e = '\\' then some '\\'
                 else if e = '/' then some '/' else if e = 'n' then some (Char.ofNat 10)
                 else if e = 't' then some (Char.ofNat 9) else if e = 'r' then some (Char.ofNat 13)
                 else if e = 'b' then some (Char.ofNat 8) else if e = 'f' then some (Char.ofNat 12)
                 else none) with
          | some ch =>
            match scanStr r2 with
            | some (s, rest) => some (ch :: s, rest)
            | none => none
          | none => none
    else
      match scanStr r with
      | some (s, rest) => some (c :: s, rest)
      | none => none

/-- Characters that may occur in a JSON number lexeme. -/
def numChar (c : Char) : Bool :=
  c.isDigit || c = '-' || c = '+' || c = '.' || c = 'e' || c = 'E'

/-- Consume one or more digits; `none` when there is no leading digit. -/
def chompDigits (l : List Char) : Option (List Char) :=
  if (l.takeWhile Char.isDigit).isEmpty then none else some (l.dropWhile Char.isDigit)

/-- Validity of the exponent tail of a JSON number (after `e`/`E`). -/
def afterExp (l : List Char) : Bool :=
  let l2 := match l with
    | c :: r => if c = '+' || c = '-' then r else l
    | [] => l
  match chompDigits l2 with
  | some [] => true
  | _ => false

/-- Validity of a JSON number after the fraction digits. -/
def afterFrac (l : List Char) : Bool :=
  match l with
  | [] => true
  | 'e' :: r => afterExp r
  | 'E' :: r => afterExp r
  | _ => false

/-- Validity of a JSON number after the integer part. -/
def afterInt (l : List Char) : Bool :=
  match l with
  | [] => true
  | '.' :: r =>
    (match chompDigits r with
     | some rest => afterFrac rest
     | none => false)
  | 'e' :: r => afterExp r
  | 'E' :: r => afterExp r
  | _ => false

/-- Full JSON number grammar: `-? (0 | [1-9][0-9]*) frac? exp?`. -/
def validNum (l : List Char) : Bool :=
  let l2 := match l with
    | '-' :: r => r
    | _ => l
  match l2 with
  | [] => false
  | '0' :: r => afterInt r
  | c :: r => c.isDigit && afterInt (r.dropWhile Char.isDigit)

/-- Longest prefix of `l` that is a valid JSON number (used to complete a
number truncated at end of input, as the `partial-json` package does). -/
def truncNum (l : List Char) : Option (List Char) :=
  (List.range (l.length + 1)).reverse.findSome? (fun n =>
    let p := l.take n
    if validNum p then some p else none)

/-- Match a literal word (`true`/`false`/`null`).  A complete match returns
the rest of the input; an input that ends in the middle of the word is a
tolerated truncation (the `partial-json` package completes it). -/
def litMatch (word : List Char) (cs : List Char) : Option (List Char) :=
  if cs.take word.length = word then some (cs.drop word.length)
  else if cs ≠ [] ∧ word.take cs.length = cs then some []
  else none

mutual

/-- Model of the recursive value parser of the `partial-json` npm package
(used by the adapter as `parse`): standard JSON, except that input
truncated at the end is completed (unclosed strings keep their scanned
text, unclosed arrays/objects are closed, a dangling object key or
`key:` with no value is dropped, a truncated number keeps its longest
valid prefix, a truncated keyword is completed).  Malformed input is
`none` (the package throws `MalformedJSON`).  Fuel bounds the recursion. -/
def parseVal : Nat → List Char → Option (Json × List Char)
  | 0, _ => none
  | Nat.succ fuel, cs0 =>
    let cs := skipWs cs0
    match cs with
    | [] => none
    | c :: rest =>
      if c = '"' then
        match scanStr rest with
        | some (s, r) => some (Json.str (String.mk s), r)
        | none => none
      else if c = lbraceC then parseObjFields fuel rest []
      else if c = '[' then parseArrElems fuel rest []
      else if c = 't' then (litMatch ['t','r','u','e'] cs).map (fun r => (Json.bool true, r))
      else if c = 'f' then (litMatch ['f','a','l','s','e'] cs).map (fun r => (Json.bool false, r))
      else if c = 'n' then (litMatch ['n','u','l','l'] cs).map (fun r => (Json.null, r))
      else if c = '-' || c.isDigit then
        let lex := cs.takeWhile numChar
        let r := cs.dropWhile numChar
        if r.isEmpty then
          match truncNum lex with
          | some p => some (Json.num (String.mk p), [])
          | none => none
        else if validNum lex then some (Json.num (String.mk lex), r)
        else none
      else none

/-- Array elements of the `partial-json` value parser (after `[`). -/
def parseArrElems : Nat → List Char → List Json → Option (Json × List Char)
  | 0, _, _ => none
  | Nat.succ fuel, cs0, acc =>
    let cs := skipWs cs0
    match cs with
    | [] => some (Json.arr acc, [])
    | c :: rest =>
      if c = ']' then some (Json.arr acc, rest)
      else
        match parseVal fuel cs with
        | none => none
        | some (v, r0) =>
          let r := skipWs r0
          match r with
          | [] => some (Json.arr (acc ++ [v]), [])
          | d :: r2 =>
            if d = ',' then parseArrElems fuel r2 (acc ++ [v])
            else if d = ']' then some (Json.arr (acc ++ [v]), r2)
            else none

/-- Object fields of the `partial-json` value parser (after the opening
brace). -/
def parseObjFields : Nat → List Char → List (String × Json) → Option (Json × List Char)
  | 0, _, _ => none
  | Nat.succ fuel, cs0, acc =>
    let cs := skipWs cs0
    match cs with
    | [] => some (Json.obj acc, [])
    | c :: rest =>
      if c = rbraceC then some (Json.obj acc, rest)
      else if c = '"' then
        match scanStr rest with
        | none => none
        | some (k, r0) =>
          let r := skipWs r0
          match r with
          | [] => some (Json.obj acc, [])
          | d :: r2 =>
            if d = ':' then
              let r3 := skipWs r2
              if r3.isEmpty then some (Json.obj acc, [])
              else
                match parseVal fuel r3 with
                | none => none
                | some (v, r4) =>
                  let r5 := skipWs r4
                  match r5 with
                  | [] => some (Json.obj (acc ++ [(String.mk k, v)]), [])
                  | e :: r6 =>
                    if e = ',' then parseObjFields fuel r6 (acc ++ [(String.mk k, v)])
                    else if e = rbraceC then some (Json.obj (acc ++ [(String.mk k, v)]), r6)
                    else none
            else none
      else none

end

/-- Model of `parse` from the `partial-json` npm package: parse the whole
input as a single JSON value, tolerating input truncated at the end;
`none` models a thrown `MalformedJSON` error. -/
def tolerantParse (s : String) : Option Json :=
  match parseVal (s.data.length + 1) s.data with
  | some (j, rest) => if (skipWs rest).isEmpty then some j else none
  | none => none

/-- JavaScript `x || d` on an optional string (`undefined` and the empty
string are falsy). -/
def jsOrElse (o : Option String) (d : String) : String :=
  match o with
  | some s => if s = "" then d else s
  | none => d

/-- `folderName.replace(/_/g, ' ')` from the caption-search action. -/
def underscoresToSpaces (s : String) : String :=
  String.mk (s.data.map (fun c => if c = '_' then ' ' else c))

/-- Drop leading whitespace of a character list. -/
def trimStartL (l : List Char) : List Char := l.dropWhile wsChar

/-- Drop trailing whitespace of a character list. -/
def trimEndL (l : List Char) : List Char := (l.reverse.dropWhile wsChar).reverse

/-- Drop surrounding whitespace of a character list. -/
def trimBothL (l : List Char) : List Char := trimEndL (trimStartL l)

/-- JavaScript `String.prototype.trim()` (ASCII whitespace). -/
def jsTrim (s : String) : String := String.mk (trimBothL s.data)

/-- `pre` is a prefix of `s` (JavaScript `String.prototype.startsWith`). -/
def strStarts (s pre : String) : Bool := pre.data.isPrefixOf s.data

/-- `sub` occurs inside `s` (JavaScript `String.prototype.includes`). -/
def strContains (s sub : String) : Bool :=
  (List.range (s.data.length + 1)).any (fun i => sub.data.isPrefixOf (s.data.drop i))

/-- The three-backtick fence delimiter. -/
def ticks3 : List Char := [btickC, btickC, btickC]

/-- The four characters of the `json` fence tag. -/
def jsonTag : List Char := ['j', 's', 'o', 'n']

/-- Matching part of `OpenAILLM.stripMarkdownCodeFence`: the regex
`^\x60\x60\x60(?:json)?\s*([\s\S]*?)\s*\x60\x60\x60$` applied to `cs`.
`some mid` is the captured group before the surrounding-whitespace
trimming imposed by the greedy `\s*` and the anchored lazy capture;
`none` means the regex does not match. -/
def fenceStrip (cs : List Char) : Option (List Char) :=
  if cs.take 3 = ticks3 then
    let r := cs.drop 3
    let r2 := if r.take 4 = jsonTag then r.drop 4 else r
    let rr := r2.reverse
    if rr.take 3 = ticks3 then some (rr.drop 3).reverse else none
  else none

/-- `OpenAILLM.stripMarkdownCodeFence`: strip a surrounding markdown code
fence (with optional `json` tag), returning the trimmed capture, or the
input unchanged when the regex does not match. -/
def stripMarkdownCodeFence (text : String) : String :=
  match fenceStrip text.data with
  | some mid => String.mk (trimBothL mid)
  | none => text

/-! ### `OpenAILLM.generateObject` -/

/-- The mode heuristic of `OpenAILLM.generateObject`:
`this.config.baseURL?.includes('groq') || this.config.model?.startsWith('groq/')
|| this.config.model?.startsWith('openrouter/')`. -/
def needsJsonObjectMode (model : String) (baseURL : Option String) : Bool :=
  (match baseURL with
   | some u => strContains u "groq"
   | none => false)
  || strStarts model "groq/" || strStarts model "openrouter/"

/-- Observable outcome of a successful `generateObject` call: the returned
value and whether the degraded-mode schema-validation warning was logged. -/
structure GenObjectOut where
  value : Json
  warned : Bool

/-- `OpenAILLM.generateObject`, given the remote response.
`choices` is the response choice list, each entry the (possibly `null`)
`message.content`.  `repairParse` abstracts the third-party pipeline
`JSON.parse(repairJson(·, {extractJson: true}))`, with `none` modelling a
throw.  `schema` abstracts `input.schema`: zod validation returning the
validated data on success, `none` on a schema violation; `safeParse` and
`parse` are the non-throwing and throwing views of the same validation.
Request construction (schema prompt injection, `response_format`) is not
modelled since it does not affect the returned value for a given response.
`Except.error` models a thrown error. -/
def generateObject (model : String) (baseURL : Option String)
    (repairParse : String → Option Json) (schema : Json → Option Json)
    (choices : List (Option String)) : Except String GenObjectOut :=
  match choices with
  | [] => Except.error "No response from OpenAI"
  | choice0 :: _ =>
    match choice0 with
    | none => Except.error "Error parsing response from OpenAI"
    | some rawContent =>
      let strippedContent := stripMarkdownCodeFence (jsTrim rawContent)
      match repairParse strippedContent with
      | none => Except.error "Error parsing response from OpenAI"
      | some parsed =>
        if needsJsonObjectMode model baseURL then
          match schema parsed with
          | some validated => Except.ok { value := validated, warned := false }
          | none => Except.ok { value := parsed, warned := true }
        else
          match schema parsed with
          | some validated => Except.ok { value := validated, warned := false }
          | none => Except.error "Error parsing response from OpenAI"

/-! ### `OpenAILLM.streamText` -/

/-- One entry of `chunk.choices[0].delta.tool_calls`. -/
structure ToolCallDelta where
  index : Nat
  id : Option String
  fname : Option String
  fargs : Option String

/-- `chunk.choices[i].delta`. -/
structure MsgDelta where
  content : Option String
  tool_calls : Option (List ToolCallDelta)

/-- One entry of `chunk.choices`. -/
structure ChunkChoice where
  delta : MsgDelta
  finish_reason : Option String

/-- One chunk of the upstream completion stream. -/
structure StreamChunk where
  choices : List ChunkChoice

/-- One entry of the `recievedToolCalls` accumulator array of `streamText`
(spelling as in the source). -/
structure ToolCallAcc where
  name : String
  id : String
  arguments : String

/-- A parsed tool call as yielded in `toolCallChunk`. -/
structure ParsedToolCall where
  name : String
  id : String
  arguments : Json

/-- One update yielded by `streamText`. -/
structure StreamTextOutput where
  contentChunk : String
  toolCallChunk : List ParsedToolCall
  done : Bool
  finishReason : Option String

/-- `parse(args || '\x7b\x7d')` as used on tool-call argument text. -/
def parseToolArgs (s : String) : Option Json :=
  tolerantParse (if s = "" then String.mk [lbraceC, rbraceC] else s)

/-- Processing of one `tc` of `delta.tool_calls` in `streamText`: the
body of the `for (const tc of toolCalls)` loop, including its `try/catch`.
Returns the updated `recievedToolCalls` array and the entry pushed onto
`parsedToolCalls`.  When `recievedToolCalls[tc.index]` is undefined a new
accumulator is pushed at the end of the array (not at `tc.index`);
otherwise the argument fragment is appended to the existing accumulator
before re-parsing.  A parse failure is caught and yields an empty-object
argument for that call. -/
def processDelta (st : List ToolCallAcc) (tc : ToolCallDelta) :
    List ToolCallAcc × ParsedToolCall :=
  match st[tc.index]? with
  | none =>
    let call : ToolCallAcc :=
      { name := jsOrElse tc.fname "",
        id := jsOrElse tc.id ("tool_" ++ toString tc.index),
        arguments := jsOrElse tc.fargs "" }
    let st2 := st ++ [call]
    match parseToolArgs call.arguments with
    | some j => (st2, { name := call.name, id := call.id, arguments := j })
    | none =>
      let fb := (st2[tc.index]?).getD
        { name := "", id := "tool_" ++ toString tc.index, arguments := "" }
      (st2, { name := fb.name, id := fb.id, arguments := Json.obj [] })
  | some existingCall =>
    let updated : ToolCallAcc :=
      { existingCall with arguments := existingCall.arguments ++ jsOrElse tc.fargs "" }
    let st2 := st.set tc.index updated
    match parseToolArgs updated.arguments with
    | some j => (st2, { name := updated.name, id := updated.id, arguments := j })
    | none =>
      let fb := (st2[tc.index]?).getD
        { name := "", id := "tool_" ++ toString tc.index, arguments := "" }
      (st2, { name := fb.name, id := fb.id, arguments := Json.obj [] })

/-- Processing of one upstream chunk in `streamText`: when the chunk has a
nonempty `choices` list, fold its tool-call deltas through the accumulator
and yield one update; a chunk without choices yields nothing. -/
def processChunk (st : List ToolCallAcc) (c : StreamChunk) :
    List ToolCallAcc × Option StreamTextOutput :=
  match c.choices.head? with
  | none => (st, none)
  | some ch =>
    let folded :=
      match ch.delta.tool_calls with
      | none => (st, ([] : List ParsedToolCall))
      | some tcs =>
        tcs.foldl
          (fun acc tc =>
            let r := processDelta acc.1 tc
            (r.1, acc.2 ++ [r.2]))
          (st, ([] : List ParsedToolCall))
    (folded.1,
     some { contentChunk := ch.delta.content.getD "",
            toolCallChunk := folded.2,
            done := ch.finish_reason.isSome,
            finishReason := ch.finish_reason })

/-- The chunk loop of `OpenAILLM.streamText`, from an accumulator state:
returns the list of yielded updates.  The loop runs until the upstream
stream is exhausted. -/
def streamTextGo (st : List ToolCallAcc) : List StreamChunk → List StreamTextOutput
  | [] => []
  | c :: rest =>
    match processChunk st c with
    | (st2, some o) => o :: streamTextGo st2 rest
    | (st2, none) => streamTextGo st2 rest

/-- `OpenAILLM.streamText`, as a function from the upstream chunk stream to
the sequence of yielded updates (the accumulator starts empty). -/
def streamTextRun (chunks : List StreamChunk) : List StreamTextOutput :=
  streamTextGo [] chunks

/-! ### `OpenAILLM.streamObject` -/

/-- Events of the upstream responses stream consumed by `streamObject`:
`response.output_text.delta`, `response.output_text.done`, and any other
event type (ignored by the loop).  The payload strings may be empty, which
the code treats as falsy and skips. -/
inductive RespEvent where
  | textDelta (delta : String)
  | textDone (text : String)
  | other

/-- The event loop of `OpenAILLM.streamObject`, from the accumulated
response text `acc` (`recievedObj` in the source): returns the list of
yielded objects and whether a fatal parse error was thrown (which ends the
generator and propagates to the consumer). -/
def streamObjectGo : String → List RespEvent → List Json × Bool
  | _, [] => ([], false)
  | acc, RespEvent.textDelta d :: rest =>
    if d = "" then streamObjectGo acc rest
    else
      let acc2 := acc ++ d
      let y := match tolerantParse acc2 with
        | some j => j
        | none => Json.obj []
      let r := streamObjectGo acc2 rest
      (y :: r.1, r.2)
  | acc, RespEvent.textDone t :: rest =>
    if t = "" then streamObjectGo acc rest
    else
      match tolerantParse t with
      | some j =>
        let r := streamObjectGo acc rest
        (j :: r.1, r.2)
      | none => ([], true)
  | acc, RespEvent.other :: rest => streamObjectGo acc rest

/-- `OpenAILLM.streamObject`, as a function from the upstream event stream
to the yielded objects plus the thrown-error flag. -/
def streamObjectRun (events : List RespEvent) : List Json × Bool :=
  streamObjectGo "" events

/-! ### The `caption_search` research action (`src/unnamed/part_000`) -/

/-- Metadata of a content `Chunk` as built by the caption-search action.
`imageCount` and `score` are JSON numbers passed through unchanged; they
are kept as lexemes. -/
structure ChunkMeta where
  title : String
  url : String
  source : String
  platform : Option String
  holiday : Option String
  imageCount : String
  score : String

/-- A content chunk (`Chunk` from `@/lib/types`). -/
structure Chunk where
  content : String
  metadata : ChunkMeta

/-- One hit of the remote search response (`CloudflareSearchResult`). -/
structure CloudflareSearchResult where
  id : String
  content : String
  folderName : String
  platform : Option String
  holiday : Option String
  imageCount : String
  score : String

/-- The remote search response (`CloudflareSearchResponse`). -/
structure CloudflareSearchResponse where
  query : String
  results : List CloudflareSearchResult
  total : String

/-- A sub-step entry of a research block: a `searching` progress marker or
a `search_results` entry. -/
inductive SubStep where
  | searching (id : String) (queries : List String)
  | searchResults (id : String) (reading : List Chunk)

/-- A session block as returned by `session.getBlock`: its `type` and the
`data.subSteps` list (the only parts the action touches). -/
structure Block where
  btype : String
  subSteps : List SubStep

/-- One JSON-patch-style operation passed to `session.updateBlock`. -/
structure PatchOp where
  op : String
  path : String
  value : List SubStep

/-- Externally observable side effects of one `execute` invocation, in
program order: `session.updateBlock` calls and the remote `fetch` of
`POST <ragURL>/search` with body `\x7bquery, limit, threshold\x7d`. -/
inductive SessionEvent where
  | updateBlock (blockId : String) (ops : List PatchOp)
  | fetchSearch (url : String) (query : String) (limit : String) (threshold : String)

/-- Outcome of the `fetch` call: a thrown transport error, or an HTTP
response with a status and a body.  `body = none` models a `res.json()`
parse failure or a response whose shape breaks the subsequent field
accesses (both throw inside the `try` block). -/
inductive FetchOutcome where
  | fetchThrow
  | resp (status : Nat) (body : Option CloudflareSearchResponse)

/-- The value returned by `execute`: `\x7btype: 'search_results', results\x7d`. -/
structure SearchActionResult where
  rtype : String
  results : List Chunk

/-- The full observable outcome of one `execute` invocation. -/
structure ExecOut where
  result : SearchActionResult
  events : List SessionEvent
  finalBlock : Option Block

/-- The empty result `\x7btype: 'search_results', results: []\x7d`. -/
def emptySearchResult : SearchActionResult :=
  { rtype := "search_results", results := [] }

/-- Mapping of one remote hit to a content chunk, from the `data.results.map`
call of `execute`. -/
def mkChunk (r : CloudflareSearchResult) : Chunk :=
  { content := r.content,
    metadata :=
      { title := "CraftyPanda: " ++ underscoresToSpaces r.folderName,
        url := "craftypanda://caption/" ++ r.id,
        source := "CraftyPanda Historical",
        platform := r.platform,
        holiday := r.holiday,
        imageCount := r.imageCount,
        score := r.score } }

/-- `res.ok`: status in the 2xx range. -/
def statusOk (status : Nat) : Bool := 200 ≤ status && status < 300

/-- `captionSearchAction.execute`.  Inputs: the configured RAG base URL
(`""` when unconfigured, the falsy value of `getCloudflareRAGURL()`), the
query, the research block id and the block `session.getBlock` returns for
it, the two `crypto.randomUUID()` draws, and the outcome of the `fetch`.
The function is total: every failure path of the source is caught and
returns the empty result, so no error ever reaches the caller. -/
def executeCaptionSearch (ragURL : String) (query : String) (blockId : String)
    (block : Option Block) (uuid1 uuid2 : String) (outcome : FetchOutcome) :
    ExecOut :=
  if ragURL = "" then
    { result := emptySearchResult, events := [], finalBlock := block }
  else
    let searchingEntry := SubStep.searching uuid1 ["CraftyPanda: " ++ query]
    let block1 : Option Block :=
      match block with
      | some b =>
        if b.btype = "research" then
          some { b with subSteps := b.subSteps ++ [searchingEntry] }
        else some b
      | none => none
    let preEvents : List SessionEvent :=
      match block1 with
      | some b1 =>
        if b1.btype = "research" then
          [SessionEvent.updateBlock blockId
            [{ op := "replace", path := "/data/subSteps", value := b1.subSteps }]]
        else []
      | none => []
    let fetchEv := SessionEvent.fetchSearch (ragURL ++ "/search") query "5" "0.5"
    match outcome with
    | FetchOutcome.fetchThrow =>
      { result := emptySearchResult, events := preEvents ++ [fetchEv], finalBlock := block1 }
    | FetchOutcome.resp status body =>
      if statusOk status then
        match body with
        | none =>
          { result := emptySearchResult, events := preEvents ++ [fetchEv], finalBlock := block1 }
        | some data =>
          let results := data.results.map mkChunk
          match block1 with
          | some b1 =>
            if b1.btype = "research" then
              let b2 : Block := { b1 with subSteps := b1.subSteps ++ [SubStep.searchResults uuid2 results] }
              { result := { rtype := "search_results", results := results },
                events := preEvents ++
                  [fetchEv,
                   SessionEvent.updateBlock blockId
                     [{ op := "replace", path := "/data/subSteps", value := b2.subSteps }]],
                finalBlock := some b2 }
            else
              { result := { rtype := "search_results", results := results },
                events := preEvents ++ [fetchEv], finalBlock := some b1 }
          | none =>
            { result := { rtype := "search_results", results := results },
              events := preEvents ++ [fetchEv], finalBlock := none }
      else
        { result := emptySearchResult, events := preEvents ++ [fetchEv], finalBlock := block1 }

/-! ## Theorems -/

/-- C1: for every query input and every failing outcome of the remote call
(unconfigured endpoint, transport failure, non-2xx status, or
response-shape error), the caption-search `execute` returns
`\x7btype: 'search_results', results: []\x7d`.  `executeCaptionSearch` is a
total function, so no error is ever raised to the caller. -/
theorem captionSearch_failure_empty (ragURL query blockId uuid1 uuid2 : String)
    (block : Option Block) (outcome : FetchOutcome)
    (h : ragURL = "" ∨ outcome = FetchOutcome.fetchThrow ∨
         ∃ s b, outcome = FetchOutcome.resp s b ∧ (statusOk s = false ∨ b = none)) :
    (executeCaptionSearch ragURL query blockId block uuid1 uuid2 outcome).result
      = emptySearchResult := by
  by_cases hr : ragURL = ""
  · simp [executeCaptionSearch, hr]
  · rcases h with h | h | ⟨s, b, rfl, hb⟩
    · exact absurd h hr
    · subst h
      simp [executeCaptionSearch, hr]
    · rcases hb with hb | rfl
      · simp [executeCaptionSearch, hr, hb]
      · by_cases hs : statusOk s
        · simp [executeCaptionSearch, hr, hs]
        · simp [executeCaptionSearch, hr, hs]

/-- Witness for C1 at a concrete failing input. -/
theorem captionSearch_failure_empty_witness :
    (executeCaptionSearch "" "craft ideas" "blk" none "u1" "u2"
        FetchOutcome.fetchThrow).result = emptySearchResult :=
  captionSearch_failure_empty "" "craft ideas" "blk" "u1" "u2" none
    FetchOutcome.fetchThrow (Or.inl rfl)

/-- C5: for every successful search response with `N` hits, `execute`
returns exactly `N` chunks; the `i`-th chunk's `metadata.title` is
`"CraftyPanda: "` followed by the `i`-th hit's `folderName` with
underscores replaced by spaces, and its `metadata.url` is
`"craftypanda://caption/"` followed by the `i`-th hit's `id`. -/
theorem captionSearch_success_chunks (ragURL query blockId uuid1 uuid2 : String)
    (block : Option Block) (status : Nat) (data : CloudflareSearchResponse)
    (hr : ragURL ≠ "") (hs : statusOk status = true) :
    (executeCaptionSearch ragURL query blockId block uuid1 uuid2
        (FetchOutcome.resp status (some data))).result.rtype = "search_results" ∧
    (executeCaptionSearch ragURL query blockId block uuid1 uuid2
        (FetchOutcome.resp status (some data))).result.results
      = data.results.map mkChunk ∧
    (executeCaptionSearch ragURL query blockId block uuid1 uuid2
        (FetchOutcome.resp status (some data))).result.results.length
      = data.results.length ∧
    (∀ i : Nat,
      ((executeCaptionSearch ragURL query blockId block uuid1 uuid2
          (FetchOutcome.resp status (some data))).result.results[i]?).map
            (fun ch => ch.metadata.title)
        = (data.results[i]?).map
            (fun r => "CraftyPanda: " ++ underscoresToSpaces r.folderName)) ∧
    (∀ i : Nat,
      ((executeCaptionSearch ragURL query blockId block uuid1 uuid2
          (FetchOutcome.resp status (some data))).result.results[i]?).map
            (fun ch => ch.metadata.url)
        = (data.results[i]?).map
            (fun r => "craftypanda://caption/" ++ r.id)) := by
  have hres : (executeCaptionSearch ragURL query blockId block uuid1 uuid2
      (FetchOutcome.resp status (some data))).result
        = { rtype := "search_results", results := data.results.map mkChunk } := by
    rcases block with _ | b
    · simp [executeCaptionSearch, hr, hs]
    · by_cases hb : b.btype = "research"
      · simp [executeCaptionSearch, hr, hs, hb]
      · simp [executeCaptionSearch, hr, hs, hb]
  refine ⟨by rw [hres], by rw [hres], by rw [hres]; simp, ?_, ?_⟩
  · intro i
    rw [hres]
    simp only [List.getElem?_map, Option.map_map]
    rfl
  · intro i
    rw [hres]
    simp only [List.getElem?_map, Option.map_map]
    rfl

/-- Witness for C5: a concrete successful response with one hit. -/
theorem captionSearch_success_chunks_witness :
    ((executeCaptionSearch "https://rag.example" "q" "blk" none "u1" "u2"
        (FetchOutcome.resp 200 (some
          { query := "q",
            results := [{ id := "42", content := "c", folderName := "xmas_crafts",
                          platform := none, holiday := none,
                          imageCount := "3", score := "0.9" }],
            total := "1" }))).result.results.length = 1) ∧
    (((executeCaptionSearch "https://rag.example" "q" "blk" none "u1" "u2"
        (FetchOutcome.resp 200 (some
          { query := "q",
            results := [{ id := "42", content := "c", folderName := "xmas_crafts",
                          platform := none, holiday := none,
                          imageCount := "3", score := "0.9" }],
            total := "1" }))).result.results[0]?).map (fun ch => ch.metadata.title)
      = some "CraftyPanda: xmas crafts") := by
  have h := captionSearch_success_chunks "https://rag.example" "q" "blk" "u1" "u2" none 200
    { query := "q",
      results := [{ id := "42", content := "c", folderName := "xmas_crafts",
                    platform := none, holiday := none,
                    imageCount := "3", score := "0.9" }],
      total := "1" }
    (by decide) rfl
  exact ⟨h.2.2.1, by rw [h.2.2.2.1 0]; rfl⟩

/-- C6 counterexample: with a research block supplied but a failing remote
call (here a 500 status), `execute` appends only the single `searching`
sub-step — not two — and issues only one `updateBlock` call, refuting the
claim that every invocation with a research block appends exactly two
sub-step entries. -/
theorem captionSearch_research_failure_one_substep :
    ((executeCaptionSearch "https://rag.example" "q" "blk"
        (some { btype := "research", subSteps := [] }) "u1" "u2"
        (FetchOutcome.resp 500 none)).finalBlock.map (fun b => b.subSteps.length)
      = some 1) ∧
    ((executeCaptionSearch "https://rag.example" "q" "blk"
        (some { btype := "research", subSteps := [] }) "u1" "u2"
        (FetchOutcome.resp 500 none)).events
      = [SessionEvent.updateBlock "blk"
           [{ op := "replace", path := "/data/subSteps",
              value := [SubStep.searching "u1" ["CraftyPanda: q"]] }],
         SessionEvent.fetchSearch "https://rag.example/search" "q" "5" "0.5"]) :=
  ⟨rfl, rfl⟩

/-- C6 (amended): for every invocation supplied with a research block whose
remote call succeeds (2xx status and parseable body), `execute` appends
exactly two sub-step entries in order — a `searching` entry pushed before
the fetch and a `search_results` entry pushed after it — and each append is
propagated by an `updateBlock` call carrying a replace patch on
`/data/subSteps`. -/
theorem captionSearch_research_two_substeps (ragURL query blockId uuid1 uuid2 : String)
    (b : Block) (status : Nat) (data : CloudflareSearchResponse)
    (hb : b.btype = "research") (hr : ragURL ≠ "") (hs : statusOk status = true) :
    executeCaptionSearch ragURL query blockId (some b) uuid1 uuid2
        (FetchOutcome.resp status (some data))
      = { result := { rtype := "search_results", results := data.results.map mkChunk },
          events :=
            [SessionEvent.updateBlock blockId
               [{ op := "replace", path := "/data/subSteps",
                  value := b.subSteps ++ [SubStep.searching uuid1 ["CraftyPanda: " ++ query]] }],
             SessionEvent.fetchSearch (ragURL ++ "/search") query "5" "0.5",
             SessionEvent.updateBlock blockId
               [{ op := "replace", path := "/data/subSteps",
                  value := (b.subSteps ++ [SubStep.searching uuid1 ["CraftyPanda: " ++ query]])
                           ++ [SubStep.searchResults uuid2 (data.results.map mkChunk)] }]],
          finalBlock := some
            { btype := b.btype,
              subSteps := (b.subSteps ++ [SubStep.searching uuid1 ["CraftyPanda: " ++ query]])
                          ++ [SubStep.searchResults uuid2 (data.results.map mkChunk)] } } := by
  simp [executeCaptionSearch, hr, hs, hb]

/-- Witness for C6 (amended) at a concrete successful invocation. -/
theorem captionSearch_research_two_substeps_witness :
    executeCaptionSearch "https://rag.example" "q" "blk"
        (some { btype := "research", subSteps := [] }) "u1" "u2"
        (FetchOutcome.resp 200 (some { query := "q", results := [], total := "0" }))
      = { result := { rtype := "search_results", results := List.map mkChunk [] },
          events :=
            [SessionEvent.updateBlock "blk"
               [{ op := "replace", path := "/data/subSteps",
                  value := [] ++ [SubStep.searching "u1" ["CraftyPanda: " ++ "q"]] }],
             SessionEvent.fetchSearch ("https://rag.example" ++ "/search") "q" "5" "0.5",
             SessionEvent.updateBlock "blk"
               [{ op := "replace", path := "/data/subSteps",
                  value := ([] ++ [SubStep.searching "u1" ["CraftyPanda: " ++ "q"]])
                           ++ [SubStep.searchResults "u2" (List.map mkChunk [])] }]],
          finalBlock := some
            { btype := "research",
              subSteps := ([] ++ [SubStep.searching "u1" ["CraftyPanda: " ++ "q"]])
                          ++ [SubStep.searchResults "u2" (List.map mkChunk [])] } } :=
  captionSearch_research_two_substeps "https://rag.example" "q" "blk" "u1" "u2"
    { btype := "research", subSteps := [] } 200
    { query := "q", results := [], total := "0" } rfl (by decide) rfl

/-- C10: for every invocation with a research block where the remote call
fails after the `searching` sub-step was appended (transport error, non-2xx
status, or body parse error), `execute` returns the empty result and the
block is left holding exactly the one newly appended `searching` entry; the
mutation made before the call is not rolled back, and no `search_results`
entry or second `updateBlock` call occurs. -/
theorem captionSearch_no_rollback (ragURL query blockId uuid1 uuid2 : String)
    (b : Block) (outcome : FetchOutcome)
    (hb : b.btype = "research") (hr : ragURL ≠ "")
    (h : outcome = FetchOutcome.fetchThrow ∨
         ∃ s bo, outcome = FetchOutcome.resp s bo ∧ (statusOk s = false ∨ bo = none)) :
    executeCaptionSearch ragURL query blockId (some b) uuid1 uuid2 outcome
      = { result := emptySearchResult,
          events :=
            [SessionEvent.updateBlock blockId
               [{ op := "replace", path := "/data/subSteps",
                  value := b.subSteps ++ [SubStep.searching uuid1 ["CraftyPanda: " ++ query]] }],
             SessionEvent.fetchSearch (ragURL ++ "/search") query "5" "0.5"],
          finalBlock := some
            { btype := b.btype,
              subSteps := b.subSteps ++ [SubStep.searching uuid1 ["CraftyPanda: " ++ query]] } } := by
  rcases h with rfl | ⟨s, bo, rfl, hb2⟩
  · simp [executeCaptionSearch, hr, hb]
  · rcases hb2 with hb2 | rfl
    · simp [executeCaptionSearch, hr, hb, hb2]
    · by_cases hs : statusOk s
      · simp [executeCaptionSearch, hr, hb, hs]
      · simp [executeCaptionSearch, hr, hb, hs]

/-- Witness for C10 at a concrete failing invocation. -/
theorem captionSearch_no_rollback_witness :
    executeCaptionSearch "https://rag.example" "q" "blk"
        (some { btype := "research", subSteps := [] }) "u1" "u2"
        FetchOutcome.fetchThrow
      = { result := emptySearchResult,
          events :=
            [SessionEvent.updateBlock "blk"
               [{ op := "replace", path := "/data/subSteps",
                  value := [] ++ [SubStep.searching "u1" ["CraftyPanda: " ++ "q"]] }],
             SessionEvent.fetchSearch ("https://rag.example" ++ "/search") "q" "5" "0.5"],
          finalBlock := some
            { btype := "research",
              subSteps := [] ++ [SubStep.searching "u1" ["CraftyPanda: " ++ "q"]] } } :=
  captionSearch_no_rollback "https://rag.example" "q" "blk" "u1" "u2"
    { btype := "research", subSteps := [] } FetchOutcome.fetchThrow
    rfl (by decide) (Or.inl rfl)

/-- C3: when the parsed response text violates the supplied schema,
`generateObject` raises an error in enforced-schema mode (model/baseURL not
matching the groq/openrouter heuristic) and, in degraded json-object mode,
logs the violation (`warned`) and returns the best-effort parsed object
instead of failing. -/
theorem generateObject_schema_violation (model : String) (baseURL : Option String)
    (repairParse : String → Option Json) (schema : Json → Option Json)
    (rawContent : String) (rest : List (Option String)) (parsed : Json)
    (hp : repairParse (stripMarkdownCodeFence (jsTrim rawContent)) = some parsed)
    (hv : schema parsed = none) :
    (needsJsonObjectMode model baseURL = false →
      generateObject model baseURL repairParse schema (some rawContent :: rest)
        = Except.error "Error parsing response from OpenAI") ∧
    (needsJsonObjectMode model baseURL = true →
      generateObject model baseURL repairParse schema (some rawContent :: rest)
        = Except.ok { value := parsed, warned := true }) := by
  constructor <;> intro hm <;> simp [generateObject, hp, hv, hm]

/-- Witness for C3: a schema-violating response under the enforced mode
(plain OpenAI model) and under the degraded mode (openrouter model). -/
theorem generateObject_schema_violation_witness :
    (generateObject "gpt-4o" none tolerantParse (fun _ => none) [some "\x7b\x7d"]
      = Except.error "Error parsing response from OpenAI") ∧
    (generateObject "openrouter/deepseek" none tolerantParse (fun _ => none) [some "\x7b\x7d"]
      = Except.ok { value := Json.obj [], warned := true }) :=
  ⟨(generateObject_schema_violation "gpt-4o" none tolerantParse (fun _ => none)
      "\x7b\x7d" [] (Json.obj []) rfl rfl).1 rfl,
   (generateObject_schema_violation "openrouter/deepseek" none tolerantParse (fun _ => none)
      "\x7b\x7d" [] (Json.obj []) rfl rfl).2 rfl⟩

/-- Appending preserves the character list of a string. -/
theorem strData_append (s t : String) : (s ++ t).data = s.data ++ t.data := rfl

/-- A string is its own character list rebuilt. -/
theorem strMk_data (s : String) : String.mk s.data = s := rfl

/-- Leading trim ignores a leading whitespace character. -/
theorem trimStartL_cons_ws {c : Char} (l : List Char) (hc : wsChar c = true) :
    trimStartL (c :: l) = trimStartL l := by
  simp [trimStartL, List.dropWhile_cons, hc]

/-- Leading trim keeps a leading non-whitespace character. -/
theorem trimStartL_cons_not_ws {c : Char} (l : List Char) (hc : wsChar c = false) :
    trimStartL (c :: l) = c :: l := by
  simp [trimStartL, List.dropWhile_cons, hc]

/-- Trailing trim drops a trailing whitespace character. -/
theorem trimEndL_append_ws {c : Char} (l : List Char) (hc : wsChar c = true) :
    trimEndL (l ++ [c]) = trimEndL l := by
  simp [trimEndL, List.reverse_append, List.dropWhile_cons, hc]

/-- Trailing trim keeps a trailing non-whitespace character. -/
theorem trimEndL_append_not_ws {c : Char} (l : List Char) (hc : wsChar c = false) :
    trimEndL (l ++ [c]) = l ++ [c] := by
  simp [trimEndL, List.reverse_append, List.dropWhile_cons, hc]

/-- Trimming is unchanged by a newline added on each side. -/
theorem trimBothL_pad (l : List Char) :
    trimBothL ('\n' :: (l ++ ['\n'])) = trimBothL l := by
  have hn : wsChar '\n' = true := by decide
  unfold trimBothL
  rw [trimStartL_cons_ws _ hn]
  unfold trimStartL
  rw [List.dropWhile_append]
  by_cases he : (List.dropWhile wsChar l).isEmpty
  · rw [if_pos he]
    have h2 : List.dropWhile wsChar ['\n'] = [] := by decide
    have h3 : List.dropWhile wsChar l = [] := by
      cases hl : List.dropWhile wsChar l with
      | nil => rfl
      | cons a as => rw [hl] at he; simp [List.isEmpty] at he
    rw [h2, h3]
  · rw [if_neg he]
    exact trimEndL_append_ws _ hn

/-- Trimming fixes a list that starts and ends with a non-whitespace
character. -/
theorem trimBothL_sandwich (a : Char) (m : List Char) (b : Char)
    (ha : wsChar a = false) (hb : wsChar b = false) :
    trimBothL (a :: (m ++ [b])) = a :: (m ++ [b]) := by
  unfold trimBothL
  rw [trimStartL_cons_not_ws _ ha]
  rw [show a :: (m ++ [b]) = (a :: m) ++ [b] by simp]
  rw [trimEndL_append_not_ws _ hb]

/-- The character list of a fence-wrapped string, in head-normal form. -/
theorem wrappedData (t : String) :
    ("```json\n" ++ t ++ "\n```").data
      = btickC :: btickC :: btickC :: 'j' :: 's' :: 'o' :: 'n' :: '\n'
          :: (t.data ++ ('\n' :: btickC :: btickC :: [btickC])) := by
  rw [strData_append, strData_append, List.append_assoc]
  rfl

/-- JavaScript `trim()` fixes a fence-wrapped string: it starts and ends
with a backtick. -/
theorem jsTrim_wrapped (t : String) :
    jsTrim ("```json\n" ++ t ++ "\n```") = "```json\n" ++ t ++ "\n```" := by
  unfold jsTrim
  rw [wrappedData]
  rw [show (btickC :: btickC :: btickC :: 'j' :: 's' :: 'o' :: 'n' :: '\n'
        :: (t.data ++ ('\n' :: btickC :: btickC :: [btickC])))
      = btickC :: ((btickC :: btickC :: 'j' :: 's' :: 'o' :: 'n' :: '\n'
        :: (t.data ++ ['\n', btickC, btickC])) ++ [btickC]) by simp]
  rw [trimBothL_sandwich _ _ _ (by decide) (by decide)]
  rw [show btickC :: ((btickC :: btickC :: 'j' :: 's' :: 'o' :: 'n' :: '\n'
        :: (t.data ++ ['\n', btickC, btickC])) ++ [btickC])
      = ("```json\n" ++ t ++ "\n```").data by rw [wrappedData]; simp]

/-- The fence regex matches a fence-wrapped string and captures the middle
(before the whitespace trimming of the capture). -/
theorem fenceStrip_wrapped (t : String) :
    fenceStrip ("```json\n" ++ t ++ "\n```").data
      = some ('\n' :: (t.data ++ ['\n'])) := by
  rw [wrappedData]
  unfold fenceStrip
  simp only []
  have hc1 : (btickC :: btickC :: btickC :: 'j' :: 's' :: 'o' :: 'n' :: '\n'
      :: (t.data ++ ('\n' :: btickC :: btickC :: [btickC]))).take 3 = ticks3 := rfl
  rw [if_pos hc1]
  have hc2 : ((btickC :: btickC :: btickC :: 'j' :: 's' :: 'o' :: 'n' :: '\n'
      :: (t.data ++ ('\n' :: btickC :: btickC :: [btickC]))).drop 3).take 4 = jsonTag := rfl
  rw [if_pos hc2]
  have h2 : ((btickC :: btickC :: btickC :: 'j' :: 's' :: 'o' :: 'n' :: '\n'
      :: (t.data ++ ('\n' :: btickC :: btickC :: [btickC]))).drop 3).drop 4
      = (('\n' :: t.data) ++ ['\n']) ++ [btickC, btickC, btickC] := by simp
  rw [h2, List.reverse_append]
  have hc3 : (([btickC, btickC, btickC] : List Char).reverse
      ++ (('\n' :: t.data) ++ ['\n']).reverse).take 3 = ticks3 := by
    simp [ticks3]
  rw [if_pos hc3]
  have h4 : (([btickC, btickC, btickC] : List Char).reverse
      ++ (('\n' :: t.data) ++ ['\n']).reverse).drop 3
      = (('\n' :: t.data) ++ ['\n']).reverse := by
    simp
  rw [h4, List.reverse_reverse]
  simp

/-- Stripping the fence from a fence-wrapped string yields the trimmed
inner text. -/
theorem stripFence_wrapped (t : String) :
    stripMarkdownCodeFence ("```json\n" ++ t ++ "\n```") = jsTrim t := by
  unfold stripMarkdownCodeFence
  rw [fenceStrip_wrapped]
  show String.mk (trimBothL ('\n' :: (t.data ++ ['\n']))) = jsTrim t
  rw [trimBothL_pad]
  rfl

/-- The fence regex does not match a string that does not begin with three
backticks, so `stripMarkdownCodeFence` returns it unchanged. -/
theorem stripFence_noFence (s : String) (h : s.data.take 3 ≠ ticks3) :
    stripMarkdownCodeFence s = s := by
  unfold stripMarkdownCodeFence fenceStrip
  rw [if_neg h]

/-- C8: for every text `t` that does not itself begin (after trimming)
with a code fence — in particular for every JSON text, which never starts
with a backtick — `generateObject` applied to a response whose content is
`t` wrapped in a markdown code fence produces the same parsed and
validated outcome as when applied to the unwrapped `t`. -/
theorem generateObject_codefence_roundtrip (model : String) (baseURL : Option String)
    (repairParse : String → Option Json) (schema : Json → Option Json)
    (t : String) (rest : List (Option String))
    (h : (jsTrim t).data.take 3 ≠ ticks3) :
    generateObject model baseURL repairParse schema
        (some ("```json\n" ++ t ++ "\n```") :: rest)
      = generateObject model baseURL repairParse schema (some t :: rest) := by
  simp only [generateObject]
  rw [jsTrim_wrapped, stripFence_wrapped, stripFence_noFence _ h]

/-- Witness for C8 at a concrete JSON text. -/
theorem generateObject_codefence_roundtrip_witness :
    generateObject "gpt-4o" none tolerantParse (fun j => some j)
        (some ("```json\n" ++ "\x7b\"x\":1\x7d" ++ "\n```") :: [])
      = generateObject "gpt-4o" none tolerantParse (fun j => some j)
        (some "\x7b\"x\":1\x7d" :: []) :=
  generateObject_codefence_roundtrip "gpt-4o" none tolerantParse (fun j => some j)
    "\x7b\"x\":1\x7d" [] (by decide)

/-- The chunk loop of `streamText` yields exactly one update per upstream
chunk with a nonempty choice list, flagged with that chunk's finish reason,
for any starting accumulator state. -/
theorem streamTextGo_done_spec (chunks : List StreamChunk) (st : List ToolCallAcc) :
    (streamTextGo st chunks).map (fun o => (o.done, o.finishReason))
      = (chunks.filterMap (fun c => c.choices.head?)).map
          (fun ch => (ch.finish_reason.isSome, ch.finish_reason)) := by
  induction chunks generalizing st with
  | nil => rfl
  | cons c rest ih =>
    cases hc : c.choices.head? with
    | none =>
      simp [streamTextGo, processChunk, hc, ih]
    | some ch =>
      simp [streamTextGo, processChunk, hc, ih]

/-- C2 counterexample: a stream whose first chunk carries a non-null
finish reason and whose second chunk carries more content.  `streamText`
yields an update for the second chunk, after the first finished one, so
the yielded sequence does not terminate at the first non-null completion
reason. -/
theorem streamText_yield_after_finish :
    (streamTextRun
      [{ choices := [{ delta := { content := some "a", tool_calls := none },
                       finish_reason := some "stop" }] },
       { choices := [{ delta := { content := some "b", tool_calls := none },
                       finish_reason := none }] }]).map
      (fun o => (o.contentChunk, o.done))
      = [("a", true), ("b", false)] := rfl

/-- C2 (amended): each `streamText` update is flagged `done` exactly when
its chunk's upstream `finish_reason` is non-null, and the yielded sequence
has exactly one update per upstream chunk with a nonempty choice list —
i.e. it terminates exactly when the upstream stream is exhausted (no local
heuristic), not necessarily at the first finished chunk; `streamObject`
likewise keeps processing events until its upstream stream ends, as the
concrete run with an event after the terminal `done` event shows. -/
theorem streamText_termination_upstream (chunks : List StreamChunk) :
    ((streamTextRun chunks).map (fun o => (o.done, o.finishReason))
      = (chunks.filterMap (fun c => c.choices.head?)).map
          (fun ch => (ch.finish_reason.isSome, ch.finish_reason))) ∧
    (streamObjectRun [RespEvent.textDone "1", RespEvent.textDelta "2"]
      = ([Json.num "1", Json.num "2"], false)) :=
  ⟨streamTextGo_done_spec chunks [], rfl⟩

/-- A stream chunk carrying a single tool-call delta. -/
def argChunk (idx : Nat) (idv namev argv : Option String) : StreamChunk :=
  { choices := [{ delta := { content := none,
                             tool_calls := some [{ index := idx, id := idv,
                                                   fname := namev, fargs := argv }] },
                  finish_reason := none }] }

/-- C4: a tool call's argument text accumulates by string concatenation
across chunks sharing the same index and is re-parsed tolerantly on every
chunk (first conjunct, for every state and delta hitting an existing
accumulator); feeding the fragments `\x7b"a":1` then `,"b":2\x7d` at the same
index yields, after the second chunk, the parsed object `\x7ba:1, b:2\x7d`
(second conjunct); and a chunk whose accumulated argument text is invalid
JSON yields an empty object for that call while the stream continues with
later chunks (third conjunct). -/
theorem streamText_argument_accumulation :
    (∀ (st : List ToolCallAcc) (tc : ToolCallDelta) (existingCall : ToolCallAcc),
      st[tc.index]? = some existingCall →
      (processDelta st tc).1
        = st.set tc.index
            { existingCall with
              arguments := existingCall.arguments ++ jsOrElse tc.fargs "" } ∧
      (processDelta st tc).2.arguments
        = (parseToolArgs (existingCall.arguments ++ jsOrElse tc.fargs "")).getD
            (Json.obj [])) ∧
    ((streamTextRun
        [argChunk 0 (some "call_1") (some "f") (some "\x7b\"a\":1"),
         argChunk 0 none none (some ",\"b\":2\x7d")]).map
        (fun o => o.toolCallChunk.map (fun p => (p.name, p.id, p.arguments)))
      = [[("f", "call_1", Json.obj [("a", Json.num "1")])],
         [("f", "call_1", Json.obj [("a", Json.num "1"), ("b", Json.num "2")])]]) ∧
    ((streamTextRun
        [argChunk 0 (some "x") (some "g") (some "@"),
         { choices := [{ delta := { content := some "more", tool_calls := none },
                         finish_reason := none }] }]).map
        (fun o => (o.contentChunk, o.toolCallChunk.map (fun p => p.arguments)))
      = [("", [Json.obj []]), ("more", [])]) := by
  refine ⟨?_, rfl, rfl⟩
  intro st tc existingCall h
  constructor
  · cases hp : parseToolArgs (existingCall.arguments ++ jsOrElse tc.fargs "") <;>
      simp [processDelta, h, hp]
  · cases hp : parseToolArgs (existingCall.arguments ++ jsOrElse tc.fargs "") <;>
      simp [processDelta, h, hp]

/-- Witness for C4 (first conjunct) at a concrete state and delta. -/
theorem streamText_argument_accumulation_witness :
    (processDelta [{ name := "f", id := "c1", arguments := "\x7b" }]
        { index := 0, id := none, fname := none, fargs := some "\"a\":1\x7d" }).1
      = [{ name := "f", id := "c1", arguments := "\x7b" }].set 0
          { name := "f", id := "c1",
            arguments := "\x7b" ++ jsOrElse (some "\"a\":1\x7d") "" } ∧
    (processDelta [{ name := "f", id := "c1", arguments := "\x7b" }]
        { index := 0, id := none, fname := none, fargs := some "\"a\":1\x7d" }).2.arguments
      = (parseToolArgs ("\x7b" ++ jsOrElse (some "\"a\":1\x7d") "")).getD (Json.obj []) :=
  streamText_argument_accumulation.1
    [{ name := "f", id := "c1", arguments := "\x7b" }]
    { index := 0, id := none, fname := none, fargs := some "\"a\":1\x7d" }
    { name := "f", id := "c1", arguments := "\x7b" } rfl

/-- C9: when a tool-call delta's index has no existing accumulator, the new
accumulator is appended at the end of the accumulator list regardless of
the delta's index value (first conjunct); consequently, in a stream whose
first tool-call delta has index 2, a later delta with the same index 2
finds `recievedToolCalls[2]` still undefined and starts a fresh accumulator
instead of concatenating (second and third conjuncts: after the two deltas
the list holds two separate accumulators and the second yielded call
carries only the second fragment). -/
theorem streamText_new_accumulator_appended :
    (∀ (st : List ToolCallAcc) (tc : ToolCallDelta),
      st[tc.index]? = none →
      (processDelta st tc).1
        = st ++ [{ name := jsOrElse tc.fname "",
                   id := jsOrElse tc.id ("tool_" ++ toString tc.index),
                   arguments := jsOrElse tc.fargs "" }]) ∧
    ((processDelta
        ((processDelta [] { index := 2, id := some "x", fname := some "g",
                            fargs := some "\x7b\"a\":" }).1)
        { index := 2, id := none, fname := none, fargs := some "\x7b\"b\":2\x7d" }).1
      = [{ name := "g", id := "x", arguments := "\x7b\"a\":" },
         { name := "", id := "tool_2", arguments := "\x7b\"b\":2\x7d" }]) ∧
    ((processDelta
        ((processDelta [] { index := 2, id := some "x", fname := some "g",
                            fargs := some "\x7b\"a\":" }).1)
        { index := 2, id := none, fname := none, fargs := some "\x7b\"b\":2\x7d" }).2
      = { name := "", id := "tool_2", arguments := Json.obj [("b", Json.num "2")] }) := by
  refine ⟨?_, rfl, rfl⟩
  intro st tc h
  cases hp : parseToolArgs (jsOrElse tc.fargs "") <;>
    simp [processDelta, h, hp]

/-- Witness for C9 (first conjunct): the first delta of the concrete
scenario, whose index 2 exceeds the empty accumulator list. -/
theorem streamText_new_accumulator_appended_witness :
    (processDelta []
        { index := 2, id := some "x", fname := some "g", fargs := some "\x7b\"a\":" }).1
      = [] ++ [{ name := jsOrElse (some "g") "",
                 id := jsOrElse (some "x") ("tool_" ++ toString 2),
                 arguments := jsOrElse (some "\x7b\"a\":") "" }] :=
  streamText_new_accumulator_appended.1 []
    { index := 2, id := some "x", fname := some "g", fargs := some "\x7b\"a\":" } rfl

/-- C7: every intermediate text increment of `streamObject` yields the
tolerant parse of the accumulated text, a parse failure on an intermediate
increment yielding an empty object and continuing the stream (first
conjunct); a parse failure on the terminal `done` chunk raises an error
that propagates to the consumer, ending the yields (second conjunct); the
third conjunct is a concrete run showing both: `[1` parses tolerantly,
the increment to `[1@` is malformed and yields `\x7b\x7d` while the stream
continues, and the malformed terminal chunk is fatal. -/
theorem streamObject_parse_policy :
    (∀ (acc d : String) (rest : List RespEvent), d ≠ "" →
      streamObjectGo acc (RespEvent.textDelta d :: rest)
        = (((tolerantParse (acc ++ d)).getD (Json.obj []))
             :: (streamObjectGo (acc ++ d) rest).1,
           (streamObjectGo (acc ++ d) rest).2)) ∧
    (∀ (acc t : String) (rest : List RespEvent), t ≠ "" →
      tolerantParse t = none →
      streamObjectGo acc (RespEvent.textDone t :: rest) = ([], true)) ∧
    (streamObjectRun
        [RespEvent.textDelta "[1", RespEvent.textDelta "@", RespEvent.textDone "@"]
      = ([Json.arr [Json.num "1"], Json.obj []], true)) := by
  refine ⟨?_, ?_, rfl⟩
  · intro acc d rest hd
    cases hp : tolerantParse (acc ++ d) <;> simp [streamObjectGo, hd, hp]
  · intro acc t rest ht hp
    simp [streamObjectGo, ht, hp]

/-- Witness for C7: both universal conjuncts at concrete inputs. -/
theorem streamObject_parse_policy_witness :
    (streamObjectGo "" [RespEvent.textDelta "1"]
      = (((tolerantParse ("" ++ "1")).getD (Json.obj []))
           :: (streamObjectGo ("" ++ "1") []).1,
         (streamObjectGo ("" ++ "1") []).2)) ∧
    (streamObjectGo "" [RespEvent.textDone "@"] = ([], true)) :=
  ⟨streamObject_parse_policy.1 "" "1" [] (by decide),
   streamObject_parse_policy.2.1 "" "@" [] (by decide) rfl⟩

end PerplexicaSpec
